import Mathlib

/-!
Shallow embedding of `src/main.py` of the lab-record-backend repository
(a FastAPI service that assembles a .docx lab record with QR codes).

Conventions of the embedding:
* lengths given to python-docx in `Inches(x)` are represented as natural
  numbers in hundredths of an inch (`Inches(0.5)` becomes `50`);
* font sizes `Pt(x)` are represented as the natural number `x`;
* image files are byte lists (`List Nat`);
* the filesystem effects of the endpoint (files written / removed) are
  recorded explicitly in the build result so that cleanup claims can be
  stated;
* python-docx objects (paragraphs, runs, cells, tables) are modelled as
  plain records holding the attributes the source code actually sets.
-/

namespace LabRecordBackend

/-! ## Decimal rendering of naturals (Python `str(n)`) -/

/-- The decimal digit character for `d < 10` (Python digit rendering). -/
def digitChar (d : Nat) : Char := Char.ofNat (48 + d)

/-- Decimal digit list, most significant first, computed with explicit
fuel so that the kernel can evaluate it (the fuel strictly bounds the
value being rendered, which shrinks by a factor of ten each step). -/
def natDecimalAux : Nat → Nat → List Char
  | 0, _ => []
  | fuel + 1, n =>
    if n < 10 then [digitChar n]
    else natDecimalAux fuel (n / 10) ++ [digitChar (n % 10)]

/-- Decimal digit list of a natural number, most significant first.
Mirrors Python `str(n)` for non-negative `n`. -/
def natDecimal (n : Nat) : List Char := natDecimalAux (n + 1) n

/-- Python `str(n)` for a natural number. -/
def str_of_nat (n : Nat) : String := String.mk (natDecimal n)

/-- Python `s.zfill(width)`: left-pad with zeros up to `width`;
strings already at least `width` long are returned unchanged. -/
def zfill (s : String) (width : Nat) : String :=
  if s.length < width then String.mk (List.replicate (width - s.length) '0') ++ s
  else s

/-! ## Input data model (`Experiment`, `RecordData` pydantic models) -/

/-- The `class Experiment(BaseModel)` of main.py: title, date (default ""), github. -/
structure Experiment where
  title : String
  date : String
  github : String
deriving DecidableEq

/-- The `class RecordData(BaseModel)` of main.py. -/
structure RecordData where
  course_title : String
  student_name : String
  register_number : String
  experiments : List Experiment
deriving DecidableEq

/-- Raw JSON-level experiment object before pydantic validation:
each field either present (with a string value) or absent. -/
structure ExperimentInput where
  title : Option String
  date : Option String
  github : Option String
deriving DecidableEq

/-- Raw JSON-level record object before pydantic validation. -/
structure RecordInput where
  course_title : Option String
  student_name : Option String
  register_number : Option String
  experiments : Option (List ExperimentInput)
deriving DecidableEq

/-- Pydantic validation of one experiment: `title` and `github` are required
(as strings, with no emptiness constraint), `date` defaults to `""`. -/
def parseExperiment (e : ExperimentInput) : Option Experiment :=
  match e.title, e.github with
  | some t, some g => some { title := t, date := e.date.getD "", github := g }
  | _, _ => none

/-- Pydantic validation of the request body for `/generate-docx`: all four
fields required, every experiment validated by `parseExperiment`.
No field value constraint beyond being a string is enforced. -/
def parseRecord (r : RecordInput) : Option RecordData :=
  match r.course_title, r.student_name, r.register_number, r.experiments with
  | some ct, some sn, some rn, some es =>
    (es.mapM parseExperiment).map fun exps =>
      { course_title := ct, student_name := sn, register_number := rn,
        experiments := exps }
  | _, _, _, _ => none

/-! ## `create_qr_code` -/

/-- The raster image returned by `create_qr_code`: the matrix barcode
encoding `content`, resized to `width` by `height` pixels. -/
structure QRImage where
  content : String
  width : Nat
  height : Nat
deriving DecidableEq

/-- The function `create_qr_code(url, size)` of main.py: builds a QR code for `url`
(version 1, error correction L, box size 10, border 2) and resizes the
rendered image to exactly `(size, size)` with the LANCZOS filter. -/
def create_qr_code (url : String) (size : Nat) : QRImage :=
  { content := url, width := size, height := size }

/-! ## python-docx document model -/

/-- Paragraph alignment: `unset` is python-docx's default `None`. -/
inductive Align where
  | unset
  | center
  | right
deriving DecidableEq

/-- Payload of an embedded picture: either a generated QR image (its PNG
bytes are a function of the `QRImage`) or bytes read from a file (logo). -/
inductive ImageData where
  | qr (img : QRImage)
  | file (bytes : List Nat)
deriving DecidableEq

/-- An inline picture with its display width (hundredths of an inch). -/
structure Picture where
  data : ImageData
  width : Nat
deriving DecidableEq

/-- Attributes of a text run that main.py sets. -/
structure TextRun where
  text : String
  bold : Bool := false
  size : Option Nat := none
  color : Option (Nat × Nat × Nat) := none
  underline : Bool := false
deriving DecidableEq

/-- A run is either a text run or a run carrying an inline picture. -/
inductive RunElem where
  | text (r : TextRun)
  | picture (p : Picture)
deriving DecidableEq

/-- A paragraph: list of runs plus alignment. -/
structure Paragraph where
  runs : List RunElem
  alignment : Align := Align.unset
deriving DecidableEq

/-- One `w:tcBorders` child appended by `set_cell_border`. -/
structure BorderElem where
  edge : String
  val : String
  sz : Nat
  space : Nat
  color : String
deriving DecidableEq

/-- A table cell: paragraphs, optional explicit width (hundredths of an
inch), and the border elements appended to its properties. -/
structure Cell where
  paragraphs : List Paragraph
  width : Option Nat := none
  borders : List BorderElem := []
deriving DecidableEq

/-- A table: rows of cells, optional style name, autofit flag. -/
structure Table where
  rows : List (List Cell)
  style : Option String := none
  autofit : Bool := true
deriving DecidableEq

/-- A block-level document element. -/
inductive Block where
  | para (p : Paragraph)
  | table (t : Table)
deriving DecidableEq

/-- The assembled document: blocks plus the section margins main.py sets
(hundredths of an inch). -/
structure Docx where
  blocks : List Block
  top_margin : Nat
  bottom_margin : Nat
  left_margin : Nat
  right_margin : Nat
deriving DecidableEq

/-- A paragraph with no runs, as produced by `doc.add_paragraph()`. -/
def emptyPara : Paragraph := { runs := [] }

/-- A freshly created table cell: one empty paragraph, no width, no borders. -/
def emptyCell : Cell := { paragraphs := [emptyPara] }

/-- The python-docx `cell.text = t` setter: replaces the cell content with
a single paragraph holding a single plain text run. Cell-level properties
(width, borders) are untouched. -/
def Cell.setText (c : Cell) (t : String) : Cell :=
  { c with paragraphs := [{ runs := [RunElem.text { text := t }] }] }

/-- Text of a run (pictures contribute no text). -/
def runText : RunElem → String
  | RunElem.text r => r.text
  | RunElem.picture _ => ""

/-- Text of a cell: concatenation of the text of all runs of all its
paragraphs. -/
def Cell.textOf (c : Cell) : String :=
  String.join (c.paragraphs.map fun p => String.join (p.runs.map runText))

/-- Set the alignment of the first paragraph of a cell
(`cell.paragraphs[0].alignment = a`). -/
def setPara0Align (c : Cell) (a : Align) : Cell :=
  { c with paragraphs :=
      match c.paragraphs with
      | [] => []
      | p :: ps => { p with alignment := a } :: ps }

/-- The call `set_cell_border(cell, top=1, bottom=1, left=1, right=1)` of main.py:
appends, in the iteration order top, left, bottom, right, one single-line
border element (size 4, space 0, color 000000) per requested edge.
The call site requests all four edges. -/
def set_cell_border_all (c : Cell) : Cell :=
  { c with borders := c.borders ++
      (["top", "left", "bottom", "right"].map fun e =>
        { edge := e, val := "single", sz := 4, space := 0, color := "000000" }) }

/-! ## The experiment table of `generate_docx` -/

/-- The fixed header labels (line 156 of main.py). -/
def headers : List String :=
  ["Exp", "Date", "Name of The Experiment", "QR Code", "Mark", "Signature"]

/-- The fixed column widths (line 169), hundredths of an inch. -/
def widths : List Nat := [50, 80, 300, 80, 60, 100]

/-- Header-cell run formatting: bold, 11 pt. -/
def formatHeaderRun : RunElem → RunElem
  | RunElem.text r => RunElem.text { r with bold := true, size := some 11 }
  | RunElem.picture p => RunElem.picture p

/-- Header-cell paragraph formatting: runs bold 11 pt, paragraph centered. -/
def formatHeaderPara (p : Paragraph) : Paragraph :=
  { runs := p.runs.map formatHeaderRun, alignment := Align.center }

/-- One header cell: set the label text, format every paragraph and run,
then draw all four borders (lines 159-167). -/
def applyHeader (c : Cell) (h : String) : Cell :=
  set_cell_border_all
    { c.setText h with paragraphs := (c.setText h).paragraphs.map formatHeaderPara }

/-- Format row 0 with the six header labels. -/
def headerRow (row : List Cell) : List Cell :=
  (row.zip headers).map fun ch => applyHeader ch.1 ch.2

/-- Apply the six fixed column widths to one row (lines 169-172). -/
def applyWidths (row : List Cell) : List Cell :=
  (row.zip widths).map fun cw => { cw.1 with width := some cw.2 }

/-- The title cell of an experiment row (lines 185-191): paragraph text set
to the experiment title, then a blank-lines run, then the github link run
(9 pt, blue 0000FF, underlined). -/
def fillTitleCell (exp : Experiment) (c : Cell) : Cell :=
  { c with paragraphs :=
      match c.paragraphs with
      | [] => []
      | p :: ps =>
        { p with runs :=
            [RunElem.text { text := exp.title },
             RunElem.text { text := "\n\n" },
             RunElem.text { text := exp.github, size := some 9,
                            color := some (0, 0, 255), underline := true }] } :: ps }

/-- The QR cell of an experiment row (lines 193-205): text cleared, first
paragraph centered, then a new run carrying the generated QR picture at a
0.75 inch display width. -/
def fillQRCell (exp : Experiment) (c : Cell) : Cell :=
  let c1 := setPara0Align (c.setText "") Align.center
  { c1 with paragraphs :=
      match c1.paragraphs with
      | [] => []
      | p :: ps =>
        { p with runs := p.runs ++
            [RunElem.picture { data := ImageData.qr (create_qr_code exp.github 150),
                               width := 75 }] } :: ps }

/-- Replace entry `i` of a row by `f` applied to it. -/
def modifyCell (row : List Cell) (i : Nat) (f : Cell → Cell) : List Cell :=
  row.set i (f (row.getD i emptyCell))

/-- Fill experiment row `idx` (0-based) of the table, lines 176-208:
sequence cell `str(idx+1).zfill(2)` centered, date cell, title cell,
QR cell, empty mark and signature cells. -/
def fillExpRow (idx : Nat) (exp : Experiment) (row : List Cell) : List Cell :=
  let r0 := modifyCell row 0 fun c =>
    setPara0Align (c.setText (zfill (str_of_nat (idx + 1)) 2)) Align.center
  let r1 := modifyCell r0 1 fun c =>
    c.setText (if exp.date ≠ "" then exp.date else "")
  let r2 := modifyCell r1 2 (fillTitleCell exp)
  let r3 := modifyCell r2 3 (fillQRCell exp)
  let r4 := modifyCell r3 4 fun c => c.setText ""
  modifyCell r4 5 fun c => c.setText ""

/-- The call `doc.add_table(rows=n+1, cols=6)`: a fresh table of empty cells with
the Table Grid style (lines 152-154). -/
def initTable (n : Nat) : Table :=
  { rows := List.replicate (n + 1) (List.replicate 6 emptyCell),
    style := some "Table Grid" }

/-- The experiment table as built by lines 152-208: create the
(n+1) by 6 table, format the header row, apply the column widths to every
row, then fill row idx+1 from experiment idx. -/
def buildTable (exps : List Experiment) : Table :=
  let t := initTable exps.length
  let rows1 := match t.rows with
    | [] => []
    | r :: rest => headerRow r :: rest
  let rows2 := rows1.map applyWidths
  let rows3 := match rows2 with
    | [] => []
    | r :: rest =>
      r :: List.zipWith (fun (ie : Nat × Experiment) row => fillExpRow ie.1 ie.2 row)
        exps.enum rest
  { rows := rows3, style := t.style, autofit := t.autofit }

/-! ## Document assembly and the `/generate-docx` endpoint -/

/-- The logo files possibly present next to main.py: contents (bytes) of
college_logo.png, college_logo.jpg, college_logo.jpeg, each `none` when
the file does not exist. This is the filesystem state the endpoint reads. -/
structure Env where
  png : Option (List Nat)
  jpg : Option (List Nat)
  jpeg : Option (List Nat)
deriving DecidableEq

/-- Lines 128-139: the first existing file among college_logo.png,
college_logo.jpg, college_logo.jpeg, if any. -/
def findLogo (env : Env) : Option (List Nat) :=
  match env.png with
  | some b => some b
  | none =>
    match env.jpg with
    | some b => some b
    | none => env.jpeg

/-- Whether any of the three logo files exists. -/
def logoPresent (env : Env) : Bool := (findLogo env).isSome

/-- The footer details table (lines 221-232): 2 by 2, autofit off; first
row holds the name (11 pt) and the right-aligned register number (11 pt);
second row is untouched. -/
def detailsTable (data : RecordData) : Table :=
  { rows :=
      [[{ emptyCell with paragraphs :=
            [{ runs := [RunElem.text { text := "Name: " ++ data.student_name,
                                       size := some 11 }] }] },
        { emptyCell with paragraphs :=
            [{ runs := [RunElem.text { text := "Register Number: " ++ data.register_number,
                                       size := some 11 }],
               alignment := Align.right }] }],
       [emptyCell, emptyCell]],
    autofit := false }

/-- The block sequence of the document built by `generate_docx`
(lines 117-232): optional centered logo (7 inch wide) plus spacing
paragraph, centered bold 14 pt course title, spacing, the experiment
table, two spacing paragraphs, the bold confirmation sentence, spacing,
and the details table. -/
def buildBlocks (data : RecordData) (env : Env) : List Block :=
  (match findLogo env with
   | some bytes =>
     [Block.para { runs := [RunElem.picture { data := ImageData.file bytes, width := 700 }],
                   alignment := Align.center },
      Block.para emptyPara]
   | none => []) ++
  [Block.para { runs := [RunElem.text { text := data.course_title, bold := true,
                                        size := some 14 }],
                alignment := Align.center },
   Block.para emptyPara,
   Block.table (buildTable data.experiments),
   Block.para emptyPara,
   Block.para emptyPara,
   Block.para { runs := [RunElem.text
      { text := "I confirm that the experiments and GitHub links provided are entirely my own work.",
        bold := true }] },
   Block.para emptyPara,
   Block.table (detailsTable data)]

/-- The assembled document with the fixed section margins of lines 119-124
(top 0.5 inch, bottom 1 inch, left 1 inch, right 1 inch). -/
def buildDoc (data : RecordData) (env : Env) : Docx :=
  { blocks := buildBlocks data env,
    top_margin := 50, bottom_margin := 100, left_margin := 100, right_margin := 100 }

/-- The temporary QR file written for row `idx` (line 194). -/
def qr_filename (idx : Nat) : String := "/tmp/qr_" ++ str_of_nat idx ++ ".png"

/-- The output path of line 234. -/
def output_filename (data : RecordData) : String :=
  "/tmp/" ++ data.register_number ++ "_Lab_Record.docx"

/-- The observable outcome of a successful `/generate-docx` request:
the assembled document, the `create_qr_code` invocations in order, the
files written and later removed, and the path and suggested filename
given to `FileResponse`. -/
structure BuildResult where
  doc : Docx
  qr_calls : List (String × Nat)
  createdFiles : List String
  removedFiles : List String
  response_path : String
  response_filename : String
deriving DecidableEq

/-- The success path of `generate_docx` (lines 114-247): assemble the
document, write one QR image per experiment row, save the document at
`/tmp/{register_number}_Lab_Record.docx`, build the `FileResponse` whose
`filename` argument is that same full path, then remove the QR images
(and only them). -/
def generate_docx (data : RecordData) (env : Env) : BuildResult :=
  let qr_images := (List.range data.experiments.length).map qr_filename
  let out := output_filename data
  { doc := buildDoc data env,
    qr_calls := data.experiments.map fun e => (e.github, 150),
    createdFiles := qr_images ++ [out],
    removedFiles := qr_images,
    response_path := out,
    response_filename := out }

/-- The `/generate-docx` endpoint as seen by a client: pydantic validation
first (a validation failure never reaches the handler body), then the
handler success path. -/
def handle_generate (inp : RecordInput) (env : Env) : Option BuildResult :=
  (parseRecord inp).map fun data => generate_docx data env

/-- The tables of a document, in block order. -/
def Docx.tables (d : Docx) : List Table :=
  d.blocks.filterMap fun b =>
    match b with
    | Block.table t => some t
    | Block.para _ => none

/-! ## The `/upload-logo` endpoint -/

/-- The upload as the handler sees it: its declared content type and its
client-supplied filename. -/
structure UploadFileIn where
  content_type : String
  filename : String
deriving DecidableEq

/-- An `HTTPException(status_code, detail)`. -/
structure HTTPError where
  status_code : Nat
  detail : String
deriving DecidableEq

/-- Python `s.startswith(pre)` over the character data. -/
def str_startswith (s pre : String) : Bool := pre.data.isPrefixOf s.data

/-- Python `s.split('.')`: split the character list on every dot;
a dotless string yields itself as the only piece. -/
def split_dot : List Char → List (List Char)
  | [] => [[]]
  | c :: cs =>
    let r := split_dot cs
    if c = '.' then [] :: r
    else
      match r with
      | [] => [[c]]
      | p :: ps => (c :: p) :: ps

/-- Line 93: `file.filename.split('.')[-1].lower()`. Python `split` on a
dotless name returns the whole name as its only piece, and `lower` maps
each character to lower case. -/
def file_ext (filename : String) : String :=
  String.mk (((split_dot filename.data).getLastD filename.data).map Char.toLower)

/-- Starlette renders an HTTPException as `"{status_code}: {detail}"`. -/
def HTTPError.toStr (e : HTTPError) : String :=
  str_of_nat e.status_code ++ ": " ++ e.detail

/-- The body of the `try` block of `upload_logo` (lines 90-110): reject a
non-image content type with a 400, reject an extension outside
png/jpg/jpeg with a 400, otherwise store the logo and answer with the
success message. The file writes themselves are modelled as succeeding. -/
def upload_logo_body (f : UploadFileIn) : Except HTTPError String :=
  if ¬ str_startswith f.content_type "image/" then
    Except.error { status_code := 400, detail := "File must be an image" }
  else if ¬ (file_ext f.filename ∈ ["png", "jpg", "jpeg"]) then
    Except.error { status_code := 400, detail := "Only PNG, JPG, JPEG files allowed" }
  else
    Except.ok "Logo uploaded successfully"

/-- The whole `upload_logo` handler (lines 87-112): any exception raised
inside the `try` block, the two `HTTPException(400, ...)` included, is
caught by `except Exception` and re-raised as a 500 error wrapping the
original exception text. -/
def upload_logo (f : UploadFileIn) : Except HTTPError String :=
  match upload_logo_body f with
  | Except.ok r => Except.ok r
  | Except.error e =>
    Except.error { status_code := 500, detail := "Error uploading logo: " ++ e.toStr }

/-! ## Structural view of a document (image bytes erased)

Two runs of the assembler can embed different logo bytes while agreeing on
every structural attribute; the view below forgets file-sourced image
bytes and keeps everything else (element counts, text, styling). -/

/-- Erase the bytes of file-sourced images; generated QR images are kept
since they are a function of the record. -/
def viewImage : ImageData → ImageData
  | ImageData.file _ => ImageData.file []
  | ImageData.qr img => ImageData.qr img

/-- View of a run: picture bytes erased, text and styling kept. -/
def viewRun : RunElem → RunElem
  | RunElem.picture p => RunElem.picture { p with data := viewImage p.data }
  | RunElem.text r => RunElem.text r

/-- View of a paragraph. -/
def viewPara (p : Paragraph) : Paragraph := { p with runs := p.runs.map viewRun }

/-- View of a cell. -/
def viewCell (c : Cell) : Cell := { c with paragraphs := c.paragraphs.map viewPara }

/-- View of a table. -/
def viewTable (t : Table) : Table := { t with rows := t.rows.map (List.map viewCell) }

/-- View of a block. -/
def viewBlock : Block → Block
  | Block.para p => Block.para (viewPara p)
  | Block.table t => Block.table (viewTable t)

/-- Structural view of a whole document. -/
def structView (d : Docx) : Docx := { d with blocks := d.blocks.map viewBlock }

/-! ## Supporting definitions and lemmas -/

/-- A fresh table row after the column widths have been applied. -/
def rowW : List Cell := applyWidths (List.replicate 6 emptyCell)

/-- The finished header row: labels formatted, then widths applied. -/
def headerRowW : List Cell := applyWidths (headerRow (List.replicate 6 emptyCell))

/-- A filesystem state with no logo file. -/
def env0 : Env := { png := none, jpg := none, jpeg := none }

lemma zipWith_replicate_right {α β γ : Type} (f : α → β → γ) (l : List α) (c : β) :
    List.zipWith f l (List.replicate l.length c) = l.map fun a => f a c := by
  induction l with
  | nil => rfl
  | cons a t ih => simp [List.replicate_succ, ih]

/-- The rows of the experiment table: the header row followed by one
filled row per experiment, in input order. -/
lemma buildTable_rows (exps : List Experiment) :
    (buildTable exps).rows =
      headerRowW :: exps.enum.map fun ie => fillExpRow ie.1 ie.2 rowW := by
  simp [buildTable, initTable, List.replicate_succ, List.map_replicate,
    headerRowW, rowW]
  rw [show exps.length = exps.enum.length from (List.enum_length).symm]
  exact zipWith_replicate_right _ _ _

/-- The documents built by the assembler contain exactly two tables: the
experiment table and the footer details table, in that order. -/
lemma tables_buildDoc (data : RecordData) (env : Env) :
    (buildDoc data env).tables = [buildTable data.experiments, detailsTable data] := by
  cases h : findLogo env <;>
    simp [buildDoc, buildBlocks, Docx.tables, h]

lemma fillExpRow_length (i : Nat) (e : Experiment) (row : List Cell) :
    (fillExpRow i e row).length = row.length := by
  simp [fillExpRow, modifyCell]

lemma natDecimalAux_ne_nil (fuel n : Nat) : natDecimalAux (fuel + 1) n ≠ [] := by
  unfold natDecimalAux
  split <;> simp

lemma str_of_nat_length_small (n : Nat) (h : n < 10) : (str_of_nat n).length = 1 := by
  simp [str_of_nat, natDecimal, natDecimalAux, h, String.length]

lemma str_of_nat_length_large (n : Nat) (h : 10 ≤ n) : 2 ≤ (str_of_nat n).length := by
  obtain ⟨m, rfl⟩ : ∃ m, n = m + 1 := ⟨n - 1, by omega⟩
  have hne : natDecimalAux (m + 1) ((m + 1) / 10) ≠ [] := natDecimalAux_ne_nil m _
  have hrw : natDecimal (m + 1) =
      natDecimalAux (m + 1) ((m + 1) / 10) ++ [digitChar ((m + 1) % 10)] := by
    simp [natDecimal, natDecimalAux, Nat.not_lt.mpr h]
  have hpos : 0 < (natDecimalAux (m + 1) ((m + 1) / 10)).length :=
    List.length_pos.mpr hne
  simp [str_of_nat, String.length, hrw]
  omega

lemma zfill_two_of_length_one (s : String) (h : s.length = 1) :
    zfill s 2 = "0" ++ s := by
  simp [zfill, h]

lemma zfill_two_of_length_ge_two (s : String) (h : 2 ≤ s.length) :
    zfill s 2 = s := by
  simp [zfill, Nat.not_lt.mpr h]

/-- The generated QR image is square with side exactly the requested size
(the resize call of line 51 forces both dimensions). -/
lemma create_qr_code_square (url : String) (size : Nat) :
    (create_qr_code url size).width = size ∧ (create_qr_code url size).height = size :=
  ⟨rfl, rfl⟩

/-- A sample valid record with one experiment. -/
def sample_record : RecordData :=
  { course_title := "Intro to Systems", student_name := "Jane Doe",
    register_number := "RA001",
    experiments := [{ title := "Exp1", date := "2024-01-01",
                      github := "https://github.com/x/y" }] }

/-! ## Claims -/

/-- C1: for every valid LabRecord, the experiment table produced by
document assembly has exactly len(experiments)+1 rows and 6 columns, and
its header row contains the fixed labels Exp, Date, Name of The
Experiment, QR Code, Mark, Signature in that order. -/
theorem C1_experiment_table_shape (data : RecordData) (env : Env) :
    ∃ t, (generate_docx data env).doc.tables.head? = some t ∧
      t.rows.length = data.experiments.length + 1 ∧
      (∀ r ∈ t.rows, r.length = 6) ∧
      t.rows.head?.map (fun r => r.map Cell.textOf) =
        some ["Exp", "Date", "Name of The Experiment", "QR Code", "Mark", "Signature"] := by
  refine ⟨buildTable data.experiments, ?_, ?_, ?_, ?_⟩
  · rw [show (generate_docx data env).doc = buildDoc data env from rfl, tables_buildDoc]
    rfl
  · rw [buildTable_rows]
    simp [List.enum_length]
  · rw [buildTable_rows]
    intro r hr
    rcases List.mem_cons.mp hr with hr | hr
    · subst hr
      decide
    · obtain ⟨ie, -, rfl⟩ := List.mem_map.mp hr
      rw [fillExpRow_length]
      decide
  · rw [buildTable_rows]
    show some (headerRowW.map Cell.textOf) = _
    decide

/-- Witness for C1: the table shape at a concrete record. -/
theorem C1_experiment_table_shape_witness :
    ∃ t, (generate_docx sample_record env0).doc.tables.head? = some t ∧
      t.rows.length = sample_record.experiments.length + 1 ∧
      (∀ r ∈ t.rows, r.length = 6) ∧
      t.rows.head?.map (fun r => r.map Cell.textOf) =
        some ["Exp", "Date", "Name of The Experiment", "QR Code", "Mark", "Signature"] :=
  C1_experiment_table_shape sample_record env0

/-- C4: the sequence-number cell of experiment row i (0-based) holds
str(i+1) zero-padded to two digits; one-digit indices are padded with a
single zero and indices of two or more digits are rendered in full. -/
theorem C4_sequence_cell (data : RecordData) (env : Env) (i : Nat)
    (h : i < data.experiments.length) :
    ∃ t row, (generate_docx data env).doc.tables.head? = some t ∧
      t.rows[i + 1]? = some row ∧
      row.head?.map Cell.textOf = some (zfill (str_of_nat (i + 1)) 2) ∧
      (i + 1 < 10 → zfill (str_of_nat (i + 1)) 2 = "0" ++ str_of_nat (i + 1)) ∧
      (10 ≤ i + 1 → zfill (str_of_nat (i + 1)) 2 = str_of_nat (i + 1)) := by
  obtain ⟨e, he⟩ : ∃ e, data.experiments[i]? = some e :=
    ⟨data.experiments[i], List.getElem?_eq_getElem h⟩
  refine ⟨buildTable data.experiments, fillExpRow i e rowW, ?_, ?_, rfl, ?_, ?_⟩
  · rw [show (generate_docx data env).doc = buildDoc data env from rfl, tables_buildDoc]
    rfl
  · rw [buildTable_rows]
    simp [List.getElem?_enum, he]
  · intro hlt
    exact zfill_two_of_length_one _ (str_of_nat_length_small _ hlt)
  · intro hge
    exact zfill_two_of_length_ge_two _ (str_of_nat_length_large _ hge)

/-- Witness for C4: the first experiment row of a concrete record. -/
theorem C4_sequence_cell_witness :
    0 < sample_record.experiments.length ∧
    (∃ t row, (generate_docx sample_record env0).doc.tables.head? = some t ∧
      t.rows[0 + 1]? = some row ∧
      row.head?.map Cell.textOf = some (zfill (str_of_nat (0 + 1)) 2) ∧
      (0 + 1 < 10 → zfill (str_of_nat (0 + 1)) 2 = "0" ++ str_of_nat (0 + 1)) ∧
      (10 ≤ 0 + 1 → zfill (str_of_nat (0 + 1)) 2 = str_of_nat (0 + 1))) :=
  ⟨by decide, C4_sequence_cell sample_record env0 0 (by decide)⟩

/-- C5: a record with an empty experiments list passes validation, the
build succeeds, and the produced experiment table consists of exactly the
one header row. -/
theorem C5_empty_experiments (ct sn rn : String) (env : Env) :
    ∃ res, handle_generate ⟨some ct, some sn, some rn, some []⟩ env = some res ∧
      res.doc.tables.head? = some (buildTable []) ∧
      (buildTable ([] : List Experiment)).rows.map (fun r => r.map Cell.textOf) =
        [["Exp", "Date", "Name of The Experiment", "QR Code", "Mark", "Signature"]] := by
  refine ⟨generate_docx ⟨ct, sn, rn, []⟩ env, rfl, ?_, by decide⟩
  rw [show (generate_docx ⟨ct, sn, rn, []⟩ env).doc =
      buildDoc ⟨ct, sn, rn, []⟩ env from rfl, tables_buildDoc]
  rfl

/-- A request body whose single experiment has an empty reference URL. -/
def c3_experiments : List ExperimentInput := [⟨some "T", none, some ""⟩]

/-- The full request body around `c3_experiments`. -/
def c3_input : RecordInput :=
  ⟨some "Course", some "Student", some "REG", some c3_experiments⟩

/-- C3 counterexample: a record whose experiment has an empty reference
URL passes validation (pydantic only checks that `github` is a string),
document assembly runs, and the code generator is invoked with the empty
string. -/
theorem C3_counterexample :
    ∃ d, parseRecord c3_input = some d ∧
      (generate_docx d env0).qr_calls = [("", 150)] ∧
      ("", 150) ∈ (generate_docx d env0).qr_calls := by
  exact ⟨_, rfl, rfl, by decide⟩

lemma mapM_parseExperiment (es : List ExperimentInput)
    (h : ∀ e ∈ es, e.title.isSome ∧ e.github.isSome) :
    es.mapM parseExperiment =
      some (es.map fun e => ⟨e.title.getD "", e.date.getD "", e.github.getD ""⟩) := by
  induction es with
  | nil => rfl
  | cons e t ih =>
    obtain ⟨ht, hg⟩ := h e (by simp)
    obtain ⟨tt, htt⟩ := Option.isSome_iff_exists.mp ht
    obtain ⟨gg, hgg⟩ := Option.isSome_iff_exists.mp hg
    rw [List.mapM_cons, ih fun x hx => h x (by simp [hx])]
    simp [parseExperiment, htt, hgg]

/-- C3 amended: validation only requires the title and reference URL
fields to be present strings. A record whose experiments all carry the
two required fields is accepted even when a reference URL is the empty
string, assembly proceeds, and the code generator is invoked once per
experiment with exactly its (possibly empty) reference string. -/
theorem C3_empty_url_reaches_generator (ct sn rn : String) (es : List ExperimentInput)
    (env : Env) (h : ∀ e ∈ es, e.title.isSome ∧ e.github.isSome) :
    ∃ d, parseRecord ⟨some ct, some sn, some rn, some es⟩ = some d ∧
      (generate_docx d env).qr_calls = es.map fun e => (e.github.getD "", 150) := by
  refine ⟨⟨ct, sn, rn,
    es.map fun e => ⟨e.title.getD "", e.date.getD "", e.github.getD ""⟩⟩, ?_, ?_⟩
  · show (es.mapM parseExperiment).map _ = _
    rw [mapM_parseExperiment es h]
    rfl
  · show (es.map fun e =>
        (⟨e.title.getD "", e.date.getD "", e.github.getD ""⟩ : Experiment)).map
        (fun e => (e.github, 150)) = _
    rw [List.map_map]
    rfl

/-- Witness for the amended C3 at the concrete empty-URL request. -/
theorem C3_empty_url_reaches_generator_witness :
    (∀ e ∈ c3_experiments, e.title.isSome ∧ e.github.isSome) ∧
    ∃ d, parseRecord ⟨some "Course", some "Student", some "REG", some c3_experiments⟩
        = some d ∧
      (generate_docx d env0).qr_calls = c3_experiments.map fun e => (e.github.getD "", 150) :=
  ⟨by decide,
   C3_empty_url_reaches_generator "Course" "Student" "REG" c3_experiments env0 (by decide)⟩

/-- A request body whose register number contains a path separator. -/
def c6_input : RecordInput := ⟨some "C", some "S", some "a/b", some []⟩

/-- The validated record corresponding to `c6_input`. -/
def c6_record : RecordData := ⟨"C", "S", "a/b", []⟩

/-- C6 counterexample: a register number containing the path separator is
accepted by validation (no guard exists anywhere in the handler) and
flows verbatim into the output file path. -/
theorem C6_counterexample :
    (∃ d, parseRecord c6_input = some d ∧ d.register_number = "a/b" ∧
      (generate_docx d env0).response_path = "/tmp/a/b_Lab_Record.docx") ∧
    '/' ∈ ("a/b" : String).data := by
  exact ⟨⟨_, rfl, rfl, by decide⟩, by decide⟩

/-- C6 amended: the register number is interpolated verbatim into the
output path with no guard at all, so every character of the register
number, a path separator included, reappears in the path. -/
theorem C6_register_number_unguarded (data : RecordData) (env : Env) :
    (generate_docx data env).response_path =
      "/tmp/" ++ data.register_number ++ "_Lab_Record.docx" ∧
    ∀ c ∈ data.register_number.data, c ∈ (generate_docx data env).response_path.data := by
  refine ⟨rfl, ?_⟩
  intro c hc
  show c ∈ ("/tmp/" ++ data.register_number ++ "_Lab_Record.docx").data
  rw [String.data_append, String.data_append]
  simp [hc]

/-- Witness for the amended C6 at the separator-bearing record. -/
theorem C6_register_number_unguarded_witness :
    (generate_docx c6_record env0).response_path =
      "/tmp/" ++ c6_record.register_number ++ "_Lab_Record.docx" ∧
    ∀ c ∈ c6_record.register_number.data,
      c ∈ (generate_docx c6_record env0).response_path.data :=
  C6_register_number_unguarded c6_record env0

/-- C7 counterexample: the suggested filename handed to FileResponse for
a concrete record is the full path /tmp/RA001_Lab_Record.docx, not the
bare RA001_Lab_Record.docx, and it contains a directory separator. -/
theorem C7_counterexample :
    (generate_docx sample_record env0).response_filename = "/tmp/RA001_Lab_Record.docx" ∧
    (generate_docx sample_record env0).response_filename ≠ "RA001_Lab_Record.docx" ∧
    '/' ∈ (generate_docx sample_record env0).response_filename.data :=
  ⟨by decide, by decide, by decide⟩

/-- C7 amended: the suggested filename delivered to the artifact sink is
the full output path `/tmp/<registerNumber>_Lab_Record.docx`, which always
contains a directory-path component. -/
theorem C7_filename_is_full_path (data : RecordData) (env : Env) :
    (generate_docx data env).response_filename =
      "/tmp/" ++ data.register_number ++ "_Lab_Record.docx" ∧
    '/' ∈ (generate_docx data env).response_filename.data := by
  refine ⟨rfl, ?_⟩
  show '/' ∈ ("/tmp/" ++ data.register_number ++ "_Lab_Record.docx").data
  rw [String.data_append, String.data_append]
  exact List.mem_append.mpr (Or.inl (List.mem_append.mpr (Or.inl (by decide))))

/-- A record with one experiment, used for the cleanup counterexample. -/
def c8_record : RecordData := ⟨"C", "S", "R", [⟨"T", "", "https://g/x"⟩]⟩

/-- C8 counterexample: on a successful one-experiment build the handler
creates the QR image and the output document, but removes only the QR
image; the output document file survives the request. -/
theorem C8_counterexample :
    (generate_docx c8_record env0).createdFiles =
      ["/tmp/qr_0.png", "/tmp/R_Lab_Record.docx"] ∧
    (generate_docx c8_record env0).removedFiles = ["/tmp/qr_0.png"] ∧
    "/tmp/R_Lab_Record.docx" ∉ (generate_docx c8_record env0).removedFiles :=
  ⟨by decide, by decide, by decide⟩

/-- C8 amended: on the success path the handler removes exactly the
per-row QR image files; the output document file, although created during
the build, is never removed. -/
theorem C8_output_file_not_removed (data : RecordData) (env : Env) :
    (generate_docx data env).removedFiles =
      (List.range data.experiments.length).map qr_filename ∧
    output_filename data ∈ (generate_docx data env).createdFiles ∧
    output_filename data ∉ (generate_docx data env).removedFiles := by
  refine ⟨rfl, ?_, ?_⟩
  · show output_filename data ∈
      (List.range data.experiments.length).map qr_filename ++ [output_filename data]
    simp
  · intro hmem
    obtain ⟨i, -, hi⟩ := List.mem_map.mp hmem
    have h3 : ((qr_filename i).data.reverse).head? = some 'g' := by
      show ((("/tmp/qr_" ++ str_of_nat i) ++ ".png").data.reverse).head? = some 'g'
      rw [String.data_append, List.reverse_append]
      rfl
    have h4 : ((output_filename data).data.reverse).head? = some 'x' := by
      show ((("/tmp/" ++ data.register_number) ++ "_Lab_Record.docx").data.reverse).head?
          = some 'x'
      rw [String.data_append, List.reverse_append]
      rfl
    rw [hi, h4] at h3
    exact absurd h3 (by decide)

/-- Witness for the amended C8 at a concrete record. -/
theorem C8_output_file_not_removed_witness :
    (generate_docx c8_record env0).removedFiles =
      (List.range c8_record.experiments.length).map qr_filename ∧
    output_filename c8_record ∈ (generate_docx c8_record env0).createdFiles ∧
    output_filename c8_record ∉ (generate_docx c8_record env0).removedFiles :=
  C8_output_file_not_removed c8_record env0

/-- C9: document assembly is a pure function of the record and of the
logo presence: two builds from the same record whose environments agree
on logo presence produce structurally identical documents (equal after
erasing file-sourced image bytes, which are the only part that can differ
when the stored logo file differs between the two runs). -/
theorem C9_structural_determinism (data : RecordData) (env1 env2 : Env)
    (h : logoPresent env1 = logoPresent env2) :
    structView (generate_docx data env1).doc = structView (generate_docx data env2).doc := by
  rw [show (generate_docx data env1).doc = buildDoc data env1 from rfl,
    show (generate_docx data env2).doc = buildDoc data env2 from rfl]
  unfold structView buildDoc buildBlocks
  cases he1 : findLogo env1 <;> cases he2 : findLogo env2
  · rfl
  · simp [logoPresent, he1, he2] at h
  · simp [logoPresent, he1, he2] at h
  · simp [viewBlock, viewPara, viewRun, viewImage]

/-- An environment holding a PNG logo. -/
def env_png : Env := ⟨some [1, 2, 3], none, none⟩

/-- An environment holding a JPG logo with different bytes. -/
def env_jpg : Env := ⟨none, some [7], none⟩

/-- Witness for C9: two environments with a logo present but with
different stored bytes yield structurally identical documents. -/
theorem C9_structural_determinism_witness :
    logoPresent env_png = logoPresent env_jpg ∧
    structView (generate_docx sample_record env_png).doc =
      structView (generate_docx sample_record env_jpg).doc :=
  ⟨by decide, C9_structural_determinism sample_record env_png env_jpg (by decide)⟩

/-- C10: a logo upload with a non-image content type, or with an
extension outside png/jpg/jpeg, is answered with status 500, not 400:
the 400 raised inside the handler is caught by the blanket
`except Exception` clause and re-wrapped as a 500 error. -/
theorem C10_upload_error_500 (f : UploadFileIn)
    (h : str_startswith f.content_type "image/" = false ∨
         file_ext f.filename ∉ ["png", "jpg", "jpeg"]) :
    ∃ e, upload_logo f = Except.error e ∧ e.status_code = 500 := by
  unfold upload_logo upload_logo_body
  by_cases h1 : str_startswith f.content_type "image/" = true
  · rcases h with h | h
    · rw [h1] at h
      exact absurd h (by decide)
    · rw [if_neg (by simp [h1]), if_pos h]
      exact ⟨_, rfl, rfl⟩
  · rw [if_pos h1]
    exact ⟨_, rfl, rfl⟩

/-- Witness for C10: uploading a file with content type text/plain is
rejected with a 500 error. -/
theorem C10_upload_error_500_witness :
    (str_startswith "text/plain" "image/" = false ∨
      file_ext "a.png" ∉ ["png", "jpg", "jpeg"]) ∧
    ∃ e, upload_logo ⟨"text/plain", "a.png"⟩ = Except.error e ∧ e.status_code = 500 :=
  ⟨Or.inl (by decide), C10_upload_error_500 ⟨"text/plain", "a.png"⟩ (Or.inl (by decide))⟩

end LabRecordBackend
